import Mathlib

/-!
Shallow embedding of the open-video-channel-indexer repository
(src/scripts/indexer.py and src/scripts/app.py) together with proofs
settling the specification claims.

Conventions of the embedding:
* SQL rows become Lean structures; tables become lists of rows.
* Python exceptions become `Except String` results; a caught exception is a
  consumed `.error` value.
* Python string operations are embedded over `List Char`
  (a Python `str` is a sequence of unicode code points).
* The SQLite full-text triggers of `setup_database` are modelled as
  state-transition functions on a pair of tables (base table plus fts table).
-/

/-! ## Character and string helpers (Python string semantics) -/

/-- Whitespace test used by Python `str.split()` and `str.strip()`
(ASCII whitespace; sufficient for the inputs considered here). -/
def isSpaceC (c : Char) : Bool :=
  c == ' ' || c == '\t' || c == '\n' || c == '\r' || c == '\x0b' || c == '\x0c'

/-- Python `s.split()`: split on whitespace runs, dropping empty pieces.
`acc` holds the (reversed) current word. -/
def wordsGo : List Char → List Char → List (List Char)
  | acc, [] => if acc = [] then [] else [acc.reverse]
  | acc, c :: rest =>
    if isSpaceC c then
      (if acc = [] then wordsGo [] rest else acc.reverse :: wordsGo [] rest)
    else wordsGo (c :: acc) rest

/-- Substring test: `q` occurs contiguously inside `s`. -/
def containsSub (s q : List Char) : Bool :=
  (List.range (s.length + 1)).any fun i => q.isPrefixOf (List.drop i s)

/-- Helper for the `%` wildcard of SQL LIKE: does `f` accept some suffix of `s`? -/
def likeSuffix (f : List Char → Bool) : List Char → Bool
  | [] => f []
  | c :: s => f (c :: s) || likeSuffix f s

/-- One non-`%` pattern character: `_` matches any single character,
anything else matches itself; then matching continues via `k`. -/
def likeLit (p : Char) (k : List Char → Bool) : List Char → Bool
  | [] => false
  | c :: s' => (if p = '_' then true else p == c) && k s'

/-- SQL LIKE pattern matching: `%` matches any sequence, `_` any single
character, anything else matches itself.  Structural recursion on the
pattern, with `likeSuffix` handling `%`. -/
def likeM : List Char → List Char → Bool
  | [], s => s.isEmpty
  | p :: ps, s =>
    if p = '%' then likeSuffix (likeM ps) s
    else likeLit p (likeM ps) s

/-! ## Data model (the `channels` table of `setup_database`) -/

/-- One row of the `channels` table.  The `scraped_at` timestamp column
(filled by the engine, never read by the code) is not modelled. -/
structure Channel where
  id : Nat
  channel_handle : String
  channel_url : String
  channel_name : Option String
  video_count : Option Int
  join_date : Option String
  last_modified : Option String
  logo_url : Option String
  description : Option String
deriving DecidableEq

/-- One row of the `channels_fts` full-text table:
`(rowid, channel_handle, channel_name, description)`. -/
structure FtsRow where
  rowid : Nat
  channel_handle : String
  channel_name : Option String
  description : Option String
deriving DecidableEq

/-- Database state: the base table plus the trigger-maintained fts table. -/
structure DBState where
  channels : List Channel
  fts : List FtsRow
deriving DecidableEq

/-- The projection the triggers are meant to maintain. -/
def ftsProjection (c : Channel) : FtsRow :=
  ⟨c.id, c.channel_handle, c.channel_name, c.description⟩

/-- The fts table holds exactly the projection of the base table. -/
def ftsSynced (s : DBState) : Prop :=
  s.fts = s.channels.map ftsProjection

/-- Trigger `channels_ai` (AFTER INSERT): add the projection of the new row. -/
def triggerAI (s : DBState) (newRow : Channel) : DBState :=
  { s with fts := s.fts ++ [ftsProjection newRow] }

/-- `INSERT INTO channels` followed by the `channels_ai` trigger. -/
def insertRow (s : DBState) (newRow : Channel) : DBState :=
  triggerAI { s with channels := s.channels ++ [newRow] } newRow

/-- `DELETE FROM channels WHERE id = i` followed by the `channels_ad`
trigger (`DELETE FROM channels_fts WHERE rowid = old.id`). -/
def deleteRow (s : DBState) (i : Nat) : DBState :=
  { channels := s.channels.filter fun c => c.id != i
  , fts := s.fts.filter fun r => r.rowid != i }

/-- Trigger `channels_au` (AFTER UPDATE): set handle, name and description
on the fts row whose `rowid` equals `new.id`. -/
def applyAU (fts : List FtsRow) (newRow : Channel) : List FtsRow :=
  fts.map fun r =>
    if r.rowid == newRow.id then
      { r with channel_handle := newRow.channel_handle
             , channel_name := newRow.channel_name
             , description := newRow.description }
    else r

/-- `UPDATE channels SET ... WHERE id = i` (row rewritten by `f`) followed by
the `channels_au` trigger. -/
def updateRow (s : DBState) (i : Nat) (f : Channel → Channel) : DBState :=
  match s.channels.find? (fun c => c.id == i) with
  | none => s
  | some c =>
    { channels := s.channels.map fun c' => if c'.id == i then f c' else c'
    , fts := applyAU s.fts (f c) }

/-! ## Sitemap fetching (`fetch_sitemap`, `extract_channels_from_sitemap`) -/

/-- One `<url>` entry of the sitemap XML. -/
structure SitemapEntry where
  loc : Option String
  lastmod : Option String
deriving DecidableEq

/-- Outcome of the HTTP GET plus XML parse of the sitemap. -/
inductive FetchOutcome where
  | success (entries : List SitemapEntry)
  | networkError (msg : String)
  | httpError (status : Nat)
  | malformedXml (msg : String)
deriving DecidableEq

/-- The non-success outcomes (all caught by the bare `except` clause). -/
def FetchOutcome.isFailure : FetchOutcome → Bool
  | .success _ => false
  | .networkError _ => true
  | .httpError _ => true
  | .malformedXml _ => true

/-- `fetch_sitemap`: returns the parsed XML root, or `None` on any error
(the `except` clause catches network errors, non-2xx statuses raised by
`raise_for_status`, and XML parse errors alike). -/
def fetch_sitemap : FetchOutcome → Option (List SitemapEntry)
  | .success entries => some entries
  | .networkError _ => none
  | .httpError _ => none
  | .malformedXml _ => none

/-- `channel_url.rstrip('/').split('/')[-1]`. -/
def deriveHandle (url : String) : String :=
  let stripped := (url.toList.reverse.dropWhile (· = '/')).reverse
  String.mk (((stripped.splitOnP (fun c => c = '/')).reverse.headD []))

/-- One element of the list built by `extract_channels_from_sitemap`. -/
structure SitemapChannel where
  url : String
  handle : String
  last_modified : Option String
deriving DecidableEq

/-- `extract_channels_from_sitemap`: empty list when the fetch failed,
otherwise one descriptor per entry that has a `<loc>`. -/
def extract_channels_from_sitemap (o : FetchOutcome) : List SitemapChannel :=
  match fetch_sitemap o with
  | none => []
  | some entries =>
    entries.filterMap fun e =>
      e.loc.map fun l => ⟨l, deriveHandle l, e.lastmod⟩

/-! ## Metadata scraping and the indexing loop (`index_channels`) -/

/-- The dictionary returned by `scrape_channel_metadata` on success. -/
structure Metadata where
  name : Option String
  video_count : Option Int
  join_date : Option String
  logo_url : Option String
  description : Option String
deriving DecidableEq

/-- State of one indexing run: the database connection plus the three
counters.  The `..Handles` lists record, in order, which handle each
counter tick was for (the code prints them; they let theorems attribute a
count to a handle). -/
structure IndexState where
  db : DBState
  indexedCount : Nat
  skippedCount : Nat
  errorCount : Nat
  indexedHandles : List String
  skippedHandles : List String
  erroredHandles : List String
deriving DecidableEq

/-- Fresh AUTOINCREMENT id for the next `channels` row. -/
def nextId (cs : List Channel) : Nat :=
  (cs.foldr (fun c m => max c.id m) 0) + 1

/-- The row built by the `INSERT INTO channels (...) VALUES (...)` of
`index_channels`. -/
def mkChannelRow (i : Nat) (handle url : String) (lastmod : Option String)
    (md : Metadata) : Channel :=
  ⟨i, handle, url, md.name, md.video_count, md.join_date, lastmod,
    md.logo_url, md.description⟩

/-- `SELECT id FROM channels WHERE channel_handle = ?` (as the full row). -/
def lookupHandle (s : DBState) (h : String) : Option Channel :=
  s.channels.find? fun c => c.channel_handle == h

/-- Does a row with this handle exist? (the UNIQUE constraint test). -/
def hasHandle (s : DBState) (h : String) : Bool :=
  s.channels.any fun c => c.channel_handle == h

/-- The plain `INSERT INTO channels` of `index_channels`.  The statement
has no `ON CONFLICT` clause, so inserting a handle that already exists is
a UNIQUE-constraint error raised by the engine, not a no-op. -/
def insertChannel (s : DBState) (handle url : String) (lastmod : Option String)
    (md : Metadata) : Except String DBState :=
  if hasHandle s handle then
    .error "UNIQUE constraint failed: channels.channel_handle"
  else
    .ok (insertRow s (mkChannelRow (nextId s.channels) handle url lastmod md))

/-- One iteration of the `for i, channel in enumerate(channels, 1)` loop:
skip if the handle is present, otherwise scrape and insert (counting a
failed scrape as an error).  A storage error from the insert propagates:
nothing in the loop catches it. -/
def indexStep (scrape : String → Option Metadata) (st : IndexState)
    (ch : SitemapChannel) : Except String IndexState :=
  if (lookupHandle st.db ch.handle).isSome then
    .ok { st with skippedCount := st.skippedCount + 1
                , skippedHandles := st.skippedHandles ++ [ch.handle] }
  else
    match scrape ch.url with
    | some md =>
      match insertChannel st.db ch.handle ch.url ch.last_modified md with
      | .ok db' =>
        .ok { st with db := db'
                    , indexedCount := st.indexedCount + 1
                    , indexedHandles := st.indexedHandles ++ [ch.handle] }
      | .error e => .error e
    | none =>
      .ok { st with errorCount := st.errorCount + 1
                  , erroredHandles := st.erroredHandles ++ [ch.handle] }

/-- `if max_channels: channels = channels[:max_channels]` — note that the
Python truthiness test makes both `None` and `0` mean "no limit". -/
def limitChannels (mx : Option Nat) (cs : List SitemapChannel) :
    List SitemapChannel :=
  match mx with
  | some m => if m = 0 then cs else cs.take m
  | none => cs

/-- Counters at the start of a run. -/
def initState (s : DBState) : IndexState := ⟨s, 0, 0, 0, [], [], []⟩

/-- `index_channels(rate_limit, max_channels)` run over an already
extracted channel list, starting from database state `s`.  The scrape of
each channel page is abstracted by `scrape` (`None` = scrape error).  The
`time.sleep` rate limiting has no observable effect on the state and is
not modelled. -/
def index_channels (scrape : String → Option Metadata) (mx : Option Nat)
    (sitemapChannels : List SitemapChannel) (s : DBState) :
    Except String IndexState :=
  (limitChannels mx sitemapChannels).foldlM (indexStep scrape) (initState s)

/-- The whole run as driven by `index_channels`: extract the channel list
from the sitemap fetch outcome, then index. -/
def runIndexer (scrape : String → Option Metadata) (o : FetchOutcome)
    (mx : Option Nat) (s : DBState) : Except String IndexState :=
  index_channels scrape mx (extract_channels_from_sitemap o) s

/-- Did the computation finish without an uncaught exception? -/
def isOkE {ε α : Type} : Except ε α → Bool
  | .ok _ => true
  | .error _ => false

/-! ## Ordering shared by the read endpoints
(`ORDER BY video_count DESC NULLS LAST LIMIT ?`) -/

/-- `a` sorts no later than `b` under `video_count DESC NULLS LAST`. -/
def vcBefore (a b : Option Int) : Bool :=
  match a, b with
  | some x, some y => y ≤ x
  | some _, none => true
  | none, some _ => false
  | none, none => true

/-- Stable sort by `video_count` descending, nulls last. -/
def sortByVc {α : Type} (key : α → Option Int) (l : List α) : List α :=
  l.insertionSort fun a b => vcBefore (key a) (key b) = true

/-- `ORDER BY video_count DESC NULLS LAST LIMIT lim`. -/
def orderLimitBy {α : Type} (key : α → Option Int) (lim : Nat)
    (l : List α) : List α :=
  (sortByVc key l).take lim

/-- The same, on full channel rows. -/
def orderLimit (lim : Nat) (rows : List Channel) : List Channel :=
  orderLimitBy (fun c => c.video_count) lim rows

/-! ## The `/api/search` endpoint (`search` in app.py) -/

/-- The characters replaced by `re.sub(r'[!\x27()|&]', ' ', query)`. -/
def tsSpecialChars : List Char := ['!', '\'', '(', ')', '|', '&']

/-- The substitution itself: each special character becomes a space. -/
def replaceSpecials (l : List Char) : List Char :=
  l.map fun c => if tsSpecialChars.contains c then ' ' else c

/-- `re.sub(...).strip()` followed by `.split()`.  The `.strip()` is a no-op
for whitespace splitting (leading and trailing whitespace produce no
tokens), so the tokens are the whitespace-words of the substituted text. -/
def tsTokens (q : String) : List (List Char) :=
  wordsGo [] (replaceSpecials q.toList)

/-- `' | '.join(sanitized_query.split())`: the tsquery text sent to the
engine. -/
def joinTsQuery (ts : List (List Char)) : String :=
  String.intercalate " | " (ts.map fun t => String.mk t)

/-- Strip surrounding whitespace (for tsquery lexemes). -/
def stripWs (l : List Char) : List Char :=
  ((l.dropWhile isSpaceC).reverse.dropWhile isSpaceC).reverse

/-- Words of a text, splitting on non-alphanumeric characters. -/
def wordsNonAlnum (l : List Char) : List (List Char) :=
  (l.splitOnP fun c => !c.isAlphanum).filter fun t => t ≠ []

/-- Modelled from the spec: the Postgres schema defining the
`fts_document` column queried by app.py is not under src/; per the spec it
is a text-search vector maintained as a function of handle, name and
description.  A document word is a lowercased alphanumeric run of those
three fields. -/
def docWords (c : Channel) : List (List Char) :=
  wordsNonAlnum ((c.channel_handle.toList ++ [' ']
    ++ (c.channel_name.getD "").toList ++ [' ']
    ++ (c.description.getD "").toList).map Char.toLower)

/-- Modelled from the spec: `to_tsquery('english', q)` on an OR-query
matches a document if some lexeme occurs among its words. -/
def tsDocMatch (tsq : String) (c : Channel) : Bool :=
  (((tsq.toList.splitOnP fun c => c = '|').map stripWs).filter
      fun t => t ≠ []).any
    fun t => (docWords c).contains (t.map Char.toLower)

/-- The full-text SELECT of `search`.  `to_tsquery` raises a tsquery syntax
error on an empty query string (the case the claim singles out); the
`except` clause in `search` catches it. -/
def ftsSearch (db : List Channel) (tsq : String) (lim : Nat) :
    Except String (List Channel) :=
  if tsq = "" then .error "syntax error in tsquery"
  else .ok (orderLimit lim (db.filter (tsDocMatch tsq)))

/-- `field ILIKE '%' || q || '%'`: NULL fields match nothing, otherwise
LIKE matching of the padded pattern, case-insensitively. -/
def fieldLike (q : String) (field : Option String) : Bool :=
  match field with
  | none => false
  | some s =>
    likeM ('%' :: (q.toList.map Char.toLower ++ ['%']))
      (s.toList.map Char.toLower)

/-- The WHERE clause of the fallback SELECT:
`channel_name ILIKE p OR channel_handle ILIKE p OR description ILIKE p`. -/
def likeRowMatches (q : String) (c : Channel) : Bool :=
  fieldLike q c.channel_name || fieldLike q (some c.channel_handle)
    || fieldLike q c.description

/-- The LIKE-based fallback SELECT of `search` (same ordering and cap). -/
def likeFallback (db : List Channel) (q : String) (lim : Nat) :
    List Channel :=
  orderLimit lim (db.filter (likeRowMatches q))

/-- Case-insensitive plain substring test on one nullable field. -/
def fieldSub (q : String) (field : Option String) : Bool :=
  match field with
  | none => false
  | some s => containsSub (s.toList.map Char.toLower) (q.toList.map Char.toLower)

/-- What the spec words describe for the fallback: a case-insensitive
substring ("contains") match across handle, name and description. -/
def substrRowMatches (q : String) (c : Channel) : Bool :=
  fieldSub q c.channel_name || fieldSub q (some c.channel_handle)
    || fieldSub q c.description

/-- The columns selected by both SELECTs of `search`. -/
structure ResultRow where
  channel_handle : String
  channel_name : Option String
  video_count : Option Int
  join_date : Option String
  channel_url : String
  description : Option String
  logo_url : Option String
deriving DecidableEq

/-- Row projection done by the cursor. -/
def toResultRow (c : Channel) : ResultRow :=
  ⟨c.channel_handle, c.channel_name, c.video_count, c.join_date,
    c.channel_url, c.description, c.logo_url⟩

/-- The JSON body of `/api/search`.  `query = none` models a body without
the `query` key (the empty-query branch returns only `results` and
`count`). -/
structure SearchResponse where
  results : List ResultRow
  count : Nat
  query : Option String
deriving DecidableEq

/-- The `search` endpoint: empty query short-circuits; otherwise try the
full-text SELECT and fall back to the ILIKE SELECT if it raises. -/
def searchEndpoint (db : List Channel) (q : String) (lim : Nat) :
    SearchResponse :=
  if q = "" then ⟨[], 0, none⟩
  else
    match ftsSearch db (joinTsQuery (tsTokens q)) lim with
    | .ok rs => ⟨rs.map toResultRow, (rs.map toResultRow).length, some q⟩
    | .error _ =>
      ⟨(likeFallback db q lim).map toResultRow,
        ((likeFallback db q lim).map toResultRow).length, some q⟩

/-! ## The `/api/autocomplete` endpoint -/

/-- The columns of `SELECT DISTINCT channel_name, channel_handle,
video_count`: DISTINCT applies to this whole triple. -/
structure AcRow where
  channel_name : Option String
  channel_handle : String
  video_count : Option Int
deriving DecidableEq

/-- Projection onto the selected triple. -/
def acSelect (c : Channel) : AcRow :=
  ⟨c.channel_name, c.channel_handle, c.video_count⟩

/-- The WHERE clause: `channel_name ILIKE p OR channel_handle ILIKE p`. -/
def acMatches (q : String) (c : Channel) : Bool :=
  fieldLike q c.channel_name || fieldLike q (some c.channel_handle)

/-- The autocomplete SELECT: filter, project, DISTINCT, order, cap.
(`List.dedup` realises DISTINCT; the relative order of rows with equal
`video_count` is unspecified in SQL, so any deduplication order is a
faithful model.) -/
def autocompleteRows (db : List Channel) (q : String) (lim : Nat) :
    List AcRow :=
  orderLimitBy (fun r => r.video_count) lim
    (((db.filter (acMatches q)).map acSelect).dedup)

/-- One suggestion of the JSON response. -/
structure Suggestion where
  text : String
  handle : String
  video_count : Option Int
deriving DecidableEq

/-- Python `row['channel_name'] or row['channel_handle']`: `None` and the
empty string are both falsy. -/
def pyOr (a : Option String) (b : String) : String :=
  match a with
  | none => b
  | some s => if s = "" then b else s

/-- Build one suggestion from a selected row. -/
def mkSuggestion (r : AcRow) : Suggestion :=
  ⟨pyOr r.channel_name r.channel_handle, r.channel_handle, r.video_count⟩

/-- Python `q.strip()` (over the character list, like the other Python
string operations here). -/
def pyStrip (q : String) : String :=
  String.mk (stripWs q.toList)

/-- The `autocomplete` endpoint: `q` is stripped; fewer than two characters
yields no suggestions. -/
def autocompleteEndpoint (db : List Channel) (q : String) (lim : Nat) :
    List Suggestion :=
  if pyStrip q = "" ∨ (pyStrip q).length < 2 then []
  else (autocompleteRows db (pyStrip q) lim).map mkSuggestion

/-! ## The `/api/stats` endpoint -/

/-- The non-null `video_count` values (`WHERE video_count IS NOT NULL`). -/
def nonNullCounts (db : List Channel) : List Int :=
  db.filterMap fun c => c.video_count

/-- SQL `SUM` over a filtered column: NULL on the empty set. -/
def sqlSUM (l : List Int) : Option Int :=
  if l = [] then none else some l.sum

/-- SQL `AVG` over a filtered column: NULL on the empty set, otherwise the
exact rational mean. -/
def sqlAVG (l : List Int) : Option ℚ :=
  if l = [] then none else some ((l.sum : ℚ) / (l.length : ℚ))

/-- `round(x, 1)`: round to one decimal place. -/
def round1 (x : ℚ) : ℚ :=
  ((round (x * 10) : ℤ) : ℚ) / 10

/-- The JSON body of `/api/stats`. -/
structure StatsResponse where
  total_channels : Nat
  total_videos : Int
  avg_videos_per_channel : ℚ
deriving DecidableEq

/-- The `stats` endpoint: count, coalesced sum (`or 0`), and coalesced
average rounded to one decimal, each computed by a fresh query. -/
def statsEndpoint (db : List Channel) : StatsResponse :=
  { total_channels := db.length
  , total_videos := (sqlSUM (nonNullCounts db)).getD 0
  , avg_videos_per_channel := round1 ((sqlAVG (nonNullCounts db)).getD 0) }

/-! ## Concrete scenarios used by witnesses and counterexamples -/

/-- Metadata scraped for the test channel. -/
def wMeta : Metadata :=
  ⟨some "Chan One", some 42, none, none, some "A channel"⟩

/-- A scraper that succeeds on every page. -/
def wScrape : String → Option Metadata := fun _ => some wMeta

/-- A scraper that fails on every page (the second run must not need one). -/
def wScrapeFail : String → Option Metadata := fun _ => none

/-- The empty database. -/
def dbEmpty : DBState := ⟨[], []⟩

/-- A one-entry sitemap. -/
def wSitemap : List SitemapChannel :=
  [⟨"https://open.video/channel/chan1", "chan1", some "2024-01-01"⟩]

/-- The row the first run inserts for it. -/
def wRow : Channel :=
  ⟨1, "chan1", "https://open.video/channel/chan1", some "Chan One", some 42,
    none, some "2024-01-01", none, some "A channel"⟩

/-- State after the first indexing run over `wSitemap`. -/
def wSt1 : IndexState :=
  ⟨⟨[wRow], [⟨1, "chan1", some "Chan One", some "A channel"⟩]⟩,
    1, 0, 0, ["chan1"], [], []⟩

/-- State after the second indexing run over the same sitemap. -/
def wSt2 : IndexState :=
  ⟨⟨[wRow], [⟨1, "chan1", some "Chan One", some "A channel"⟩]⟩,
    0, 1, 0, [], ["chan1"], []⟩

/-- A synced one-row database for the trigger claims. -/
def wSync : DBState :=
  ⟨[⟨1, "h1", "u1", some "Alpha", some 3, none, none, none, some "d1"⟩],
    [⟨1, "h1", some "Alpha", some "d1"⟩]⟩

/-- A fresh row to insert into `wSync`. -/
def wSyncNew : Channel :=
  ⟨2, "h2", "u2", some "Beta", none, none, none, none, none⟩

/-- An update that keeps the id (renames the channel). -/
def wUpdName : Channel → Channel :=
  fun c => { c with channel_name := some "Renamed" }

/-- An update that changes the id as well as the name. -/
def wUpdId : Channel → Channel :=
  fun c => { c with id := 2, channel_name := some "Renamed" }

/-- Two stored channels sharing the display name "Foo". -/
def acDb : List Channel :=
  [⟨1, "aa", "ua", some "Foo", some 5, none, none, none, none⟩,
   ⟨2, "bb", "ub", some "Foo", some 3, none, none, none, none⟩]

/-- Two stored channels with video counts 4 and 5. -/
def statsDb : List Channel :=
  [⟨1, "h1", "u1", some "A", some 4, none, none, none, none⟩,
   ⟨2, "h2", "u2", some "B", some 5, none, none, none, none⟩]

/-- One stored channel with NULL video_count. -/
def statsDbNull : List Channel :=
  [⟨1, "h1", "u1", some "A", none, none, none, none, none⟩]

/-! ## Instances -/

deriving instance DecidableEq for Except

instance (s : DBState) : Decidable (ftsSynced s) :=
  inferInstanceAs (Decidable (s.fts = s.channels.map ftsProjection))

/-! ## Helper lemmas about the indexing loop -/

lemma lookup_none_hasHandle {s : DBState} {h : String}
    (hl : lookupHandle s h = none) : hasHandle s h = false := by
  unfold lookupHandle at hl
  unfold hasHandle
  rw [List.find?_eq_none] at hl
  by_contra hb
  rw [Bool.not_eq_false, List.any_eq_true] at hb
  obtain ⟨c, hc, hcb⟩ := hb
  exact hl c hc hcb

lemma lookup_not_isSome {s : DBState} {h : String}
    (hl : ¬ (lookupHandle s h).isSome = true) : lookupHandle s h = none :=
  Option.not_isSome_iff_eq_none.mp hl

lemma insertChannel_ok {s : DBState} {h url : String} {lm : Option String}
    {md : Metadata} (hn : hasHandle s h = false) :
    insertChannel s h url lm md =
      .ok (insertRow s (mkChannelRow (nextId s.channels) h url lm md)) := by
  simp [insertChannel, hn]

lemma indexStep_skip {scrape : String → Option Metadata} {st : IndexState}
    {ch : SitemapChannel} (hl : (lookupHandle st.db ch.handle).isSome = true) :
    indexStep scrape st ch =
      .ok { st with skippedCount := st.skippedCount + 1
                  , skippedHandles := st.skippedHandles ++ [ch.handle] } := by
  simp [indexStep, hl]

lemma indexStep_scrape_error {scrape : String → Option Metadata}
    {st : IndexState} {ch : SitemapChannel}
    (hl : lookupHandle st.db ch.handle = none) (hs : scrape ch.url = none) :
    indexStep scrape st ch =
      .ok { st with errorCount := st.errorCount + 1
                  , erroredHandles := st.erroredHandles ++ [ch.handle] } := by
  simp [indexStep, hl, hs]

lemma indexStep_insert {scrape : String → Option Metadata} {st : IndexState}
    {ch : SitemapChannel} {md : Metadata}
    (hl : lookupHandle st.db ch.handle = none) (hs : scrape ch.url = some md) :
    indexStep scrape st ch =
      .ok { st with
        db := insertRow st.db
          (mkChannelRow (nextId st.db.channels) ch.handle ch.url
            ch.last_modified md)
        , indexedCount := st.indexedCount + 1
        , indexedHandles := st.indexedHandles ++ [ch.handle] } := by
  have hn := lookup_none_hasHandle hl
  simp [indexStep, hl, hs, insertChannel_ok hn]

lemma indexStep_cases {scrape : String → Option Metadata} {st st' : IndexState}
    {ch : SitemapChannel} (h : indexStep scrape st ch = .ok st') :
    ((lookupHandle st.db ch.handle).isSome = true ∧
      st' = { st with skippedCount := st.skippedCount + 1
                    , skippedHandles := st.skippedHandles ++ [ch.handle] })
    ∨ (∃ md, lookupHandle st.db ch.handle = none ∧ scrape ch.url = some md ∧
        st' = { st with
          db := insertRow st.db
            (mkChannelRow (nextId st.db.channels) ch.handle ch.url
              ch.last_modified md)
          , indexedCount := st.indexedCount + 1
          , indexedHandles := st.indexedHandles ++ [ch.handle] })
    ∨ (lookupHandle st.db ch.handle = none ∧ scrape ch.url = none ∧
        st' = { st with errorCount := st.errorCount + 1
                      , erroredHandles := st.erroredHandles ++ [ch.handle] }) := by
  by_cases hl : (lookupHandle st.db ch.handle).isSome = true
  · left
    refine ⟨hl, ?_⟩
    rw [indexStep_skip hl] at h
    exact (Except.ok.inj h).symm
  · have hln := lookup_not_isSome hl
    cases hs : scrape ch.url with
    | none =>
      right; right
      refine ⟨hln, rfl, ?_⟩
      rw [indexStep_scrape_error hln hs] at h
      exact (Except.ok.inj h).symm
    | some md =>
      right; left
      refine ⟨md, hln, rfl, ?_⟩
      rw [indexStep_insert hln hs] at h
      exact (Except.ok.inj h).symm

lemma indexStep_exists_ok (scrape : String → Option Metadata)
    (st : IndexState) (ch : SitemapChannel) :
    ∃ st', indexStep scrape st ch = .ok st' := by
  by_cases hl : (lookupHandle st.db ch.handle).isSome = true
  · exact ⟨_, indexStep_skip hl⟩
  · have hln := lookup_not_isSome hl
    cases hs : scrape ch.url with
    | none => exact ⟨_, indexStep_scrape_error hln hs⟩
    | some md => exact ⟨_, indexStep_insert hln hs⟩

lemma run_exists_ok (scrape : String → Option Metadata) :
    ∀ (cs : List SitemapChannel) (st : IndexState),
      ∃ st', cs.foldlM (indexStep scrape) st = .ok st' := by
  intro cs
  induction cs with
  | nil => intro st; exact ⟨st, rfl⟩
  | cons ch cs ih =>
    intro st
    obtain ⟨st1, hst1⟩ := indexStep_exists_ok scrape st ch
    obtain ⟨st', hst'⟩ := ih st1
    refine ⟨st', ?_⟩
    rw [List.foldlM_cons, hst1]
    exact hst'

lemma find?_append_some {α : Type} {p : α → Bool} {l1 l2 : List α} {a : α}
    (h : l1.find? p = some a) : (l1 ++ l2).find? p = some a := by
  induction l1 with
  | nil => simp at h
  | cons b l1 ih =>
    cases hpb : p b with
    | true =>
      rw [List.find?_cons_of_pos _ hpb] at h
      rw [List.cons_append, List.find?_cons_of_pos _ hpb]
      exact h
    | false =>
      rw [List.find?_cons_of_neg _ (by simp [hpb])] at h
      rw [List.cons_append, List.find?_cons_of_neg _ (by simp [hpb])]
      exact ih h

lemma find?_append_isSome {α : Type} {p : α → Bool} {l1 l2 : List α}
    (h : ((l1 ++ l2).find? p).isSome = true) :
    (l1.find? p).isSome = true ∨ (l2.find? p).isSome = true := by
  induction l1 with
  | nil => right; simpa using h
  | cons b l1 ih =>
    cases hpb : p b with
    | true => left; simp [List.find?_cons_of_pos _ hpb]
    | false =>
      rw [List.cons_append, List.find?_cons_of_neg _ (by simp [hpb])] at h
      rcases ih h with h1 | h2
      · left; rwa [List.find?_cons_of_neg _ (by simp [hpb])]
      · right; exact h2

lemma lookupHandle_insertRow_pres {s : DBState} {row : Channel} {h : String}
    {c : Channel} (hc : lookupHandle s h = some c) :
    lookupHandle (insertRow s row) h = some c := by
  have hc' : s.channels.find? (fun x => x.channel_handle == h) = some c := hc
  show (s.channels ++ [row]).find? (fun x => x.channel_handle == h) = some c
  exact find?_append_some hc'

lemma lookupHandle_insertRow_source {s : DBState} {row : Channel} {h : String}
    (hs : (lookupHandle (insertRow s row) h).isSome = true) :
    (lookupHandle s h).isSome = true ∨ row.channel_handle = h := by
  have hs' : (((s.channels ++ [row]).find?
      (fun x => x.channel_handle == h)).isSome) = true := hs
  rcases find?_append_isSome hs' with h1 | h2
  · left; exact h1
  · right
    by_cases hpr : (row.channel_handle == h) = true
    · exact eq_of_beq hpr
    · exfalso
      rw [List.find?_cons_of_neg _ (by simpa using hpr)] at h2
      simp at h2

lemma run_pres (scrape : String → Option Metadata) :
    ∀ (cs : List SitemapChannel) (st st' : IndexState) (h : String)
      (c : Channel),
      cs.foldlM (indexStep scrape) st = .ok st' →
      lookupHandle st.db h = some c → lookupHandle st'.db h = some c := by
  intro cs
  induction cs with
  | nil =>
    intro st st' h c hrun hc
    exact (Except.ok.inj hrun) ▸ hc
  | cons ch cs ih =>
    intro st st' h c hrun hc
    rw [List.foldlM_cons] at hrun
    cases hstep : indexStep scrape st ch with
    | error e => rw [hstep] at hrun; exact Except.noConfusion hrun
    | ok st1 =>
      rw [hstep] at hrun
      have hrun' : cs.foldlM (indexStep scrape) st1 = .ok st' := hrun
      rcases indexStep_cases hstep with ⟨_, rfl⟩ | ⟨md, hln, _, rfl⟩
        | ⟨hln, _, rfl⟩
      · exact ih _ st' h c hrun' hc
      · exact ih _ st' h c hrun' (lookupHandle_insertRow_pres hc)
      · exact ih _ st' h c hrun' hc

lemma run_skip_mono (scrape : String → Option Metadata) :
    ∀ (cs : List SitemapChannel) (st st' : IndexState),
      cs.foldlM (indexStep scrape) st = .ok st' →
      ∀ x ∈ st.skippedHandles, x ∈ st'.skippedHandles := by
  intro cs
  induction cs with
  | nil =>
    intro st st' hrun x hx
    exact (Except.ok.inj hrun) ▸ hx
  | cons ch cs ih =>
    intro st st' hrun x hx
    rw [List.foldlM_cons] at hrun
    cases hstep : indexStep scrape st ch with
    | error e => rw [hstep] at hrun; exact Except.noConfusion hrun
    | ok st1 =>
      rw [hstep] at hrun
      have hrun' : cs.foldlM (indexStep scrape) st1 = .ok st' := hrun
      rcases indexStep_cases hstep with ⟨_, rfl⟩ | ⟨md, hln, _, rfl⟩
        | ⟨hln, _, rfl⟩
      · exact ih _ st' hrun' x (List.mem_append_left _ hx)
      · exact ih _ st' hrun' x hx
      · exact ih _ st' hrun' x hx

lemma run_skip_count (scrape : String → Option Metadata) :
    ∀ (cs : List SitemapChannel) (st st' : IndexState),
      cs.foldlM (indexStep scrape) st = .ok st' →
      st.skippedCount = st.skippedHandles.length →
      st'.skippedCount = st'.skippedHandles.length := by
  intro cs
  induction cs with
  | nil =>
    intro st st' hrun hcnt
    exact (Except.ok.inj hrun) ▸ hcnt
  | cons ch cs ih =>
    intro st st' hrun hcnt
    rw [List.foldlM_cons] at hrun
    cases hstep : indexStep scrape st ch with
    | error e => rw [hstep] at hrun; exact Except.noConfusion hrun
    | ok st1 =>
      rw [hstep] at hrun
      have hrun' : cs.foldlM (indexStep scrape) st1 = .ok st' := hrun
      rcases indexStep_cases hstep with ⟨_, rfl⟩ | ⟨md, hln, _, rfl⟩
        | ⟨hln, _, rfl⟩
      · exact ih _ st' hrun' (by simp [hcnt])
      · exact ih _ st' hrun' hcnt
      · exact ih _ st' hrun' hcnt

lemma run_skip_hit (scrape : String → Option Metadata) :
    ∀ (cs : List SitemapChannel) (st st' : IndexState) (h : String)
      (c : Channel),
      cs.foldlM (indexStep scrape) st = .ok st' →
      lookupHandle st.db h = some c →
      (∃ ch ∈ cs, ch.handle = h) → h ∈ st'.skippedHandles := by
  intro cs
  induction cs with
  | nil =>
    intro st st' h c hrun hc hex
    obtain ⟨ch, hch, _⟩ := hex
    exact absurd hch (List.not_mem_nil ch)
  | cons ch cs ih =>
    intro st st' h c hrun hc hex
    rw [List.foldlM_cons] at hrun
    cases hstep : indexStep scrape st ch with
    | error e => rw [hstep] at hrun; exact Except.noConfusion hrun
    | ok st1 =>
      rw [hstep] at hrun
      have hrun' : cs.foldlM (indexStep scrape) st1 = .ok st' := hrun
      obtain ⟨ch', hch', hh⟩ := hex
      rcases List.mem_cons.mp hch' with rfl | hmem
      · rcases indexStep_cases hstep with ⟨hl, rfl⟩ | ⟨md, hln, _, rfl⟩
          | ⟨hln, _, rfl⟩
        · refine run_skip_mono scrape cs _ st' hrun' h ?_
          rw [hh]
          exact List.mem_append_right _ (List.mem_singleton_self _)
        · rw [hh, hc] at hln; exact Option.noConfusion hln
        · rw [hh, hc] at hln; exact Option.noConfusion hln
      · rcases indexStep_cases hstep with ⟨_, rfl⟩ | ⟨md, hln, _, rfl⟩
          | ⟨hln, _, rfl⟩
        · exact ih _ st' h c hrun' hc ⟨ch', hmem, hh⟩
        · exact ih _ st' h c hrun' (lookupHandle_insertRow_pres hc)
            ⟨ch', hmem, hh⟩
        · exact ih _ st' h c hrun' hc ⟨ch', hmem, hh⟩

lemma run_not_indexed (scrape : String → Option Metadata) :
    ∀ (cs : List SitemapChannel) (st st' : IndexState) (h : String)
      (c : Channel),
      cs.foldlM (indexStep scrape) st = .ok st' →
      lookupHandle st.db h = some c →
      h ∉ st.indexedHandles → h ∉ st'.indexedHandles := by
  intro cs
  induction cs with
  | nil =>
    intro st st' h c hrun hc hni
    exact (Except.ok.inj hrun) ▸ hni
  | cons ch cs ih =>
    intro st st' h c hrun hc hni
    rw [List.foldlM_cons] at hrun
    cases hstep : indexStep scrape st ch with
    | error e => rw [hstep] at hrun; exact Except.noConfusion hrun
    | ok st1 =>
      rw [hstep] at hrun
      have hrun' : cs.foldlM (indexStep scrape) st1 = .ok st' := hrun
      rcases indexStep_cases hstep with ⟨_, rfl⟩ | ⟨md, hln, _, rfl⟩
        | ⟨hln, _, rfl⟩
      · exact ih _ st' h c hrun' hc hni
      · refine ih _ st' h c hrun' (lookupHandle_insertRow_pres hc) ?_
        intro hmem
        rcases List.mem_append.mp hmem with hm1 | hm2
        · exact hni hm1
        · have heq := List.mem_singleton.mp hm2
          rw [heq, hln] at hc
          exact Option.noConfusion hc
      · exact ih _ st' h c hrun' hc hni

lemma run_source (scrape : String → Option Metadata) :
    ∀ (cs : List SitemapChannel) (st st' : IndexState) (h : String),
      cs.foldlM (indexStep scrape) st = .ok st' →
      (lookupHandle st'.db h).isSome = true →
      (lookupHandle st.db h).isSome = true ∨ ∃ ch ∈ cs, ch.handle = h := by
  intro cs
  induction cs with
  | nil =>
    intro st st' h hrun hsome
    left
    exact (Except.ok.inj hrun) ▸ hsome
  | cons ch cs ih =>
    intro st st' h hrun hsome
    rw [List.foldlM_cons] at hrun
    cases hstep : indexStep scrape st ch with
    | error e => rw [hstep] at hrun; exact Except.noConfusion hrun
    | ok st1 =>
      rw [hstep] at hrun
      have hrun' : cs.foldlM (indexStep scrape) st1 = .ok st' := hrun
      rcases ih _ st' h hrun' hsome with h1 | ⟨ch', hmem, hh⟩
      · rcases indexStep_cases hstep with ⟨_, rfl⟩ | ⟨md, hln, _, rfl⟩
          | ⟨hln, _, rfl⟩
        · left; exact h1
        · rcases lookupHandle_insertRow_source h1 with h2 | h2
          · left; exact h2
          · right; exact ⟨ch, List.mem_cons_self ch cs, h2⟩
        · left; exact h1
      · right; exact ⟨ch', List.mem_cons_of_mem ch hmem, hh⟩

/-! ## Helper lemmas about the full-text triggers -/

lemma ftsSynced_insertRow {s : DBState} (hs : ftsSynced s) (newRow : Channel) :
    ftsSynced (insertRow s newRow) := by
  unfold ftsSynced insertRow triggerAI at *
  simp [hs]

lemma ftsSynced_deleteRow {s : DBState} (hs : ftsSynced s) (i : Nat) :
    ftsSynced (deleteRow s i) := by
  unfold ftsSynced deleteRow at *
  rw [hs, List.filter_map]
  exact congrArg (List.map ftsProjection) (List.filter_congr fun x _ => rfl)

lemma ftsSynced_updateRow {s : DBState} (hs : ftsSynced s)
    (hnodup : (s.channels.map fun c => c.id).Nodup) {i : Nat}
    {f : Channel → Channel} (hf : ∀ c, (f c).id = c.id) :
    ftsSynced (updateRow s i f) := by
  unfold updateRow
  cases hfind : s.channels.find? (fun c => c.id == i) with
  | none => exact hs
  | some c0 =>
    have hc0id : c0.id = i := by
      have := List.find?_some hfind
      simpa using this
    have hc0mem := List.mem_of_find?_eq_some hfind
    have hfc0 : (f c0).id = i := by rw [hf c0, hc0id]
    unfold ftsSynced applyAU
    rw [hs]
    show (s.channels.map ftsProjection).map _ = _
    rw [List.map_map, List.map_map]
    apply List.map_congr_left
    intro c' hc'
    simp only [Function.comp]
    by_cases hci : c'.id = i
    · have hcc : c' = c0 := by
        refine List.inj_on_of_nodup_map hnodup hc' hc0mem ?_
        show c'.id = c0.id
        rw [hci, hc0id]
      subst hcc
      simp [ftsProjection, hci, hfc0]
    · simp [ftsProjection, hci, hfc0]

/-! ## Helper lemmas: LIKE patterns without wildcards are substring tests -/

lemma likeSuffix_eq_any (f : List Char → Bool) (s : List Char) :
    likeSuffix f s = (List.range (s.length + 1)).any fun i => f (List.drop i s) := by
  induction s with
  | nil =>
    rw [likeSuffix]
    rw [show List.range ([].length + 1) = [0] from rfl]
    simp
  | cons c s ih =>
    rw [likeSuffix, ih, List.length_cons]
    conv_rhs => rw [List.range_succ_eq_map]
    simp only [List.any_cons, List.drop_zero, List.any_map, Function.comp_def,
      List.drop_succ_cons]

lemma likeM_cons_ne_pct {a : Char} (ps : List Char) (s : List Char)
    (ha : ¬ a = '%') : likeM (a :: ps) s = likeLit a (likeM ps) s := by
  rw [likeM, if_neg ha]

lemma likeM_lit_append : ∀ (q p s : List Char), '%' ∉ q → '_' ∉ q →
    likeM (q ++ p) s = (q.isPrefixOf s && likeM p (List.drop q.length s)) := by
  intro q
  induction q with
  | nil => intro p s _ _; simp [List.isPrefixOf]
  | cons a q ih =>
    intro p s hpc hus
    have ha1 : ¬ a = '%' := fun h => hpc (h ▸ List.mem_cons_self a q)
    have ha2 : ¬ a = '_' := fun h => hus (h ▸ List.mem_cons_self a q)
    have hq1 : '%' ∉ q := fun h => hpc (List.mem_cons_of_mem a h)
    have hq2 : '_' ∉ q := fun h => hus (List.mem_cons_of_mem a h)
    rw [List.cons_append, likeM_cons_ne_pct _ _ ha1]
    cases s with
    | nil => simp [likeLit, List.isPrefixOf]
    | cons c s' =>
      rw [likeLit, if_neg ha2, ih p s' hq1 hq2]
      rw [List.length_cons, List.drop_succ_cons]
      rw [show (a :: q).isPrefixOf (c :: s') = ((a == c) && q.isPrefixOf s')
        from rfl]
      rw [Bool.and_assoc]

lemma likeSuffix_empty_true (s : List Char) :
    likeSuffix (likeM []) s = true := by
  induction s with
  | nil => rfl
  | cons c s ih => rw [likeSuffix, ih, Bool.or_true]

lemma likeM_pct (ps : List Char) (s : List Char) :
    likeM ('%' :: ps) s = likeSuffix (likeM ps) s := by
  rw [likeM, if_pos rfl]

lemma likeM_pct_all (s : List Char) : likeM ['%'] s = true := by
  rw [likeM_pct]
  exact likeSuffix_empty_true s

lemma likeM_contains (q s : List Char) (h1 : '%' ∉ q) (h2 : '_' ∉ q) :
    likeM ('%' :: (q ++ ['%'])) s = containsSub s q := by
  rw [likeM_pct, likeSuffix_eq_any]
  unfold containsSub
  congr 1
  funext i
  rw [likeM_lit_append q ['%'] _ h1 h2, likeM_pct_all, Bool.and_true]

lemma fieldLike_eq_fieldSub {q : String}
    (h1 : '%' ∉ q.toList.map Char.toLower)
    (h2 : '_' ∉ q.toList.map Char.toLower) (field : Option String) :
    fieldLike q field = fieldSub q field := by
  cases field with
  | none => rfl
  | some s => exact likeM_contains _ _ h1 h2

/-! ## Helper lemmas: a query that sanitizes to zero tokens -/

lemma wordsGo_ne_nil : ∀ (l acc : List Char), acc ≠ [] → wordsGo acc l ≠ [] := by
  intro l
  induction l with
  | nil =>
    intro acc hacc
    rw [wordsGo, if_neg hacc]
    exact List.cons_ne_nil _ _
  | cons c l ih =>
    intro acc hacc
    rw [wordsGo]
    by_cases hsp : isSpaceC c = true
    · rw [if_pos hsp, if_neg hacc]
      exact List.cons_ne_nil _ _
    · rw [if_neg hsp]
      exact ih (c :: acc) (List.cons_ne_nil c acc)

lemma wordsGo_nil_all_space : ∀ (l : List Char), wordsGo [] l = [] →
    ∀ c ∈ l, isSpaceC c = true := by
  intro l
  induction l with
  | nil => intro _ c hc; exact absurd hc (List.not_mem_nil c)
  | cons c l ih =>
    intro hw c' hc'
    rw [wordsGo] at hw
    by_cases hsp : isSpaceC c = true
    · rw [if_pos hsp, if_pos rfl] at hw
      rcases List.mem_cons.mp hc' with rfl | hm
      · exact hsp
      · exact ih hw c' hm
    · rw [if_neg hsp] at hw
      exact absurd hw (wordsGo_ne_nil l [c] (List.cons_ne_nil c []))

lemma tsTokens_nil_chars {q : String} (hz : tsTokens q = []) :
    ∀ c ∈ q.toList, c ∈ tsSpecialChars ∨ isSpaceC c = true := by
  intro c hc
  have hall := wordsGo_nil_all_space _ hz
  by_cases hin : c ∈ tsSpecialChars
  · left; exact hin
  · right
    have hmem : (if tsSpecialChars.contains c then ' ' else c)
        ∈ replaceSpecials q.toList := List.mem_map_of_mem _ hc
    have hws := hall _ hmem
    rw [if_neg (by simpa using hin)] at hws
    exact hws

lemma special_or_space_not_wild {c : Char}
    (h : c ∈ tsSpecialChars ∨ isSpaceC c = true) :
    Char.toLower c ≠ '%' ∧ Char.toLower c ≠ '_' := by
  rcases h with h | h
  · have hm : c = '!' ∨ c = '\'' ∨ c = '(' ∨ c = ')' ∨ c = '|' ∨ c = '&' := by
      simpa [tsSpecialChars, or_assoc] using h
    rcases hm with rfl | rfl | rfl | rfl | rfl | rfl <;> exact (by decide)
  · have hm : c = ' ' ∨ c = '\t' ∨ c = '\n' ∨ c = '\r' ∨ c = '\x0b'
        ∨ c = '\x0c' := by
      simpa [isSpaceC, or_assoc] using h
    rcases hm with rfl | rfl | rfl | rfl | rfl | rfl <;> exact (by decide)

lemma tsTokens_nil_no_pct {q : String} (hz : tsTokens q = []) :
    '%' ∉ q.toList.map Char.toLower := by
  intro hmem
  obtain ⟨c, hc, hlc⟩ := List.mem_map.mp hmem
  exact (special_or_space_not_wild (tsTokens_nil_chars hz c hc)).1 hlc

lemma tsTokens_nil_no_us {q : String} (hz : tsTokens q = []) :
    '_' ∉ q.toList.map Char.toLower := by
  intro hmem
  obtain ⟨c, hc, hlc⟩ := List.mem_map.mp hmem
  exact (special_or_space_not_wild (tsTokens_nil_chars hz c hc)).2 hlc

/-! ## Small facts used en route to the claims -/

lemma limitChannels_nil (mx : Option Nat) : limitChannels mx [] = [] := by
  unfold limitChannels
  cases mx with
  | none => rfl
  | some m => split <;> simp

/-! ## The claims -/

/-- C1: for every handle inserted by one indexing run, a second run over
the same sitemap leaves the stored row for that handle unchanged, reports
the handle among the skipped ones (so the skip counter is at least one),
and does not index it again: the per-channel lookup finds the row and the
loop moves on without writing. -/
theorem C1_second_run_skips (scrape1 scrape2 : String → Option Metadata)
    (sm : List SitemapChannel) (s0 : DBState) (st1 st2 : IndexState)
    (h : String) (c : Channel)
    (h1 : index_channels scrape1 none sm s0 = .ok st1)
    (h2 : lookupHandle s0 h = none)
    (h3 : lookupHandle st1.db h = some c)
    (h4 : index_channels scrape2 none sm st1.db = .ok st2) :
    lookupHandle st2.db h = some c ∧ h ∈ st2.skippedHandles ∧
      h ∉ st2.indexedHandles ∧ 1 ≤ st2.skippedCount := by
  have h1' : sm.foldlM (indexStep scrape1) (initState s0) = .ok st1 := h1
  have h4' : sm.foldlM (indexStep scrape2) (initState st1.db) = .ok st2 := h4
  have hc2 : lookupHandle (initState st1.db).db h = some c := h3
  have hsrc := run_source scrape1 sm (initState s0) st1 h h1'
    (by rw [h3]; rfl)
  have hex : ∃ ch ∈ sm, ch.handle = h := by
    rcases hsrc with hs0 | hex
    · rw [show (initState s0).db = s0 from rfl, h2] at hs0
      exact absurd hs0 (by simp)
    · exact hex
  refine ⟨?_, ?_, ?_, ?_⟩
  · exact run_pres scrape2 sm _ st2 h c h4' hc2
  · exact run_skip_hit scrape2 sm _ st2 h c h4' hc2 hex
  · exact run_not_indexed scrape2 sm _ st2 h c h4' hc2 (List.not_mem_nil h)
  · have hcnt := run_skip_count scrape2 sm _ st2 h4' rfl
    have hmem := run_skip_hit scrape2 sm _ st2 h c h4' hc2 hex
    rw [hcnt]
    exact List.length_pos_of_mem hmem

/-- C1 witness: the concrete two-run scenario over a one-entry sitemap. -/
theorem C1_second_run_skips_witness :
    lookupHandle wSt2.db "chan1" = some wRow ∧
      "chan1" ∈ wSt2.skippedHandles ∧ "chan1" ∉ wSt2.indexedHandles ∧
      1 ≤ wSt2.skippedCount :=
  C1_second_run_skips wScrape wScrapeFail wSitemap dbEmpty wSt1 wSt2 "chan1"
    wRow (by decide) (by decide) (by decide) (by decide)

/-- C2 counterexample: the per-channel insert is not a no-op when the
handle already exists — the statement has no conflict clause, so the
engine raises a uniqueness error (which nothing in the loop catches). -/
theorem C2_counterexample :
    insertChannel wSt1.db "chan1" "https://open.video/channel/chan1" none
        wMeta
      = .error "UNIQUE constraint failed: channels.channel_handle" := by
  decide

/-- C2 (amended): a sequential indexing run never aborts — but only
because the existence check before each insert keeps the insert from ever
firing on a present handle, not because storage errors are handled; the
insert itself errors (rather than doing nothing) on an existing handle,
and such an error would propagate uncaught. -/
theorem C2_run_ok_insert_errors (scrape : String → Option Metadata)
    (mx : Option Nat) (sm : List SitemapChannel) (s db : DBState)
    (h url : String) (lm : Option String) (md : Metadata)
    (hex : hasHandle db h = true) :
    isOkE (index_channels scrape mx sm s) = true ∧
      insertChannel db h url lm md =
        .error "UNIQUE constraint failed: channels.channel_handle" := by
  constructor
  · obtain ⟨st', hst'⟩ :=
      run_exists_ok scrape (limitChannels mx sm) (initState s)
    rw [show index_channels scrape mx sm s
        = (limitChannels mx sm).foldlM (indexStep scrape) (initState s)
      from rfl, hst']
    rfl
  · simp [insertChannel, hex]

/-- C2 witness for the amended statement. -/
theorem C2_run_ok_insert_errors_witness :
    isOkE (index_channels wScrape none wSitemap dbEmpty) = true ∧
      insertChannel wSt1.db "chan1" "u" none wMeta =
        .error "UNIQUE constraint failed: channels.channel_handle" :=
  C2_run_ok_insert_errors wScrape none wSitemap dbEmpty wSt1.db "chan1" "u"
    none wMeta (by decide)

/-- C3 counterexample: an UPDATE that changes a row id (together with its
name) leaves the fts table out of sync — the `channels_au` trigger updates
the fts row at the new id, which does not exist. -/
theorem C3_counterexample : ¬ ftsSynced (updateRow wSync 1 wUpdId) := by
  decide

/-- C3 (amended): after every insert and delete, and after every update
that leaves the row id unchanged, the fts table equals the
(rowid, handle, name, description) projection of the channels rows. -/
theorem C3_triggers_sync (s : DBState) (newRow : Channel) (i : Nat)
    (f : Channel → Channel) (hs : ftsSynced s)
    (hnodup : (s.channels.map fun c => c.id).Nodup)
    (hf : ∀ c, (f c).id = c.id) :
    ftsSynced (insertRow s newRow) ∧ ftsSynced (deleteRow s i) ∧
      ftsSynced (updateRow s i f) :=
  ⟨ftsSynced_insertRow hs newRow, ftsSynced_deleteRow hs i,
    ftsSynced_updateRow hs hnodup hf⟩

/-- C3 witness: concrete insert, delete, and id-preserving update. -/
theorem C3_triggers_sync_witness :
    ftsSynced (insertRow wSync wSyncNew) ∧ ftsSynced (deleteRow wSync 1) ∧
      ftsSynced (updateRow wSync 1 wUpdName) :=
  C3_triggers_sync wSync wSyncNew 1 wUpdName (by decide) (by decide)
    (fun _ => rfl)

/-- C4: for a non-empty query that sanitizes to zero tokens, the full-text
query is an error (empty tsquery), the endpoint answers with the fallback
SELECT instead of erroring, and that fallback is exactly the
case-insensitive substring match across handle, name and description with
the same ordering and cap (the zero-token hypothesis guarantees the query
contains no LIKE wildcard, so ILIKE means substring). -/
theorem C4_zero_token_fallback (db : List Channel) (q : String) (lim : Nat)
    (hne : q ≠ "") (hz : tsTokens q = []) :
    ftsSearch db (joinTsQuery (tsTokens q)) lim =
        .error "syntax error in tsquery" ∧
      searchEndpoint db q lim =
        ⟨(likeFallback db q lim).map toResultRow,
          ((likeFallback db q lim).map toResultRow).length, some q⟩ ∧
      likeFallback db q lim = orderLimit lim (db.filter (substrRowMatches q)) := by
  have hjoin : joinTsQuery (tsTokens q) = "" := by rw [hz]; rfl
  have hfts : ftsSearch db (joinTsQuery (tsTokens q)) lim =
      .error "syntax error in tsquery" := by
    rw [hjoin]; rfl
  refine ⟨hfts, ?_, ?_⟩
  · unfold searchEndpoint
    rw [if_neg hne, hfts]
  · unfold likeFallback orderLimit
    congr 1
    apply List.filter_congr
    intro c _
    unfold likeRowMatches substrRowMatches
    rw [fieldLike_eq_fieldSub (tsTokens_nil_no_pct hz) (tsTokens_nil_no_us hz),
      fieldLike_eq_fieldSub (tsTokens_nil_no_pct hz) (tsTokens_nil_no_us hz),
      fieldLike_eq_fieldSub (tsTokens_nil_no_pct hz) (tsTokens_nil_no_us hz)]

/-- C4 witness: the all-special query over a one-row table. -/
theorem C4_zero_token_fallback_witness :
    ftsSearch [wRow] (joinTsQuery (tsTokens "!!!")) 20 =
        .error "syntax error in tsquery" ∧
      searchEndpoint [wRow] "!!!" 20 =
        ⟨(likeFallback [wRow] "!!!" 20).map toResultRow,
          ((likeFallback [wRow] "!!!" 20).map toResultRow).length,
          some "!!!"⟩ ∧
      likeFallback [wRow] "!!!" 20 =
        orderLimit 20 ([wRow].filter (substrRowMatches "!!!")) :=
  C4_zero_token_fallback [wRow] "!!!" 20 (by decide) (by decide)

/-- C5 counterexample: with a caller maximum of 0 the run does not process
zero channels — Python truthiness makes 0 mean "no limit", so the single
sitemap channel is still processed and indexed. -/
theorem C5_counterexample :
    index_channels wScrape (some 0) wSitemap dbEmpty = .ok wSt1 ∧
      wSt1.indexedCount = 1 :=
  ⟨by decide, rfl⟩

/-- C5 (amended): for every positive maximum N the run is exactly the run
over the first N sitemap channels; a maximum of 0 is treated like no
maximum at all. -/
theorem C5_take_positive (scrape : String → Option Metadata) (m : Nat)
    (sm : List SitemapChannel) (s : DBState) (hm : 0 < m) :
    index_channels scrape (some m) sm s
        = index_channels scrape none (sm.take m) s ∧
      index_channels scrape (some 0) sm s
        = index_channels scrape none sm s := by
  constructor
  · have hl : limitChannels (some m) sm = sm.take m := by
      simp [limitChannels, Nat.pos_iff_ne_zero.mp hm]
    unfold index_channels
    rw [hl]
    rfl
  · rfl

/-- C5 witness for the amended statement at N = 1. -/
theorem C5_take_positive_witness :
    index_channels wScrape (some 1) wSitemap dbEmpty
        = index_channels wScrape none (wSitemap.take 1) dbEmpty ∧
      index_channels wScrape (some 0) wSitemap dbEmpty
        = index_channels wScrape none wSitemap dbEmpty :=
  C5_take_positive wScrape 1 wSitemap dbEmpty (by decide)

/-- C6 counterexample: the response to an empty query has no `query` key
(the empty-query branch returns only `results` and `count`). -/
theorem C6_counterexample : (searchEndpoint [] "" 20).query = none := rfl

/-- C6 (amended): for a non-empty query the body carries `results`,
`count` and `query` with `count` the length of `results` and `query`
echoing the input; an empty query is answered as a success with empty
`results`, `count = 0` and no `query` key. -/
theorem C6_response_shape (db : List Channel) (q : String) (lim : Nat)
    (hne : q ≠ "") :
    (searchEndpoint db q lim).count = (searchEndpoint db q lim).results.length
      ∧ (searchEndpoint db q lim).query = some q
      ∧ searchEndpoint db "" lim = ⟨[], 0, none⟩ := by
  refine ⟨?_, ?_, by simp [searchEndpoint]⟩ <;>
  · unfold searchEndpoint
    rw [if_neg hne]
    cases hf : ftsSearch db (joinTsQuery (tsTokens q)) lim with
    | ok rs => rfl
    | error e => rfl

/-- C6 witness for the amended statement. -/
theorem C6_response_shape_witness :
    (searchEndpoint [wRow] "abc" 20).count
        = (searchEndpoint [wRow] "abc" 20).results.length
      ∧ (searchEndpoint [wRow] "abc" 20).query = some "abc"
      ∧ searchEndpoint [wRow] "" 20 = ⟨[], 0, none⟩ :=
  C6_response_shape [wRow] "abc" 20 (by decide)

/-- C7: when at least one stored channel has a non-null video count,
stats returns the row count, the exact sum of the non-null counts, and
their mean rounded to one decimal place, all recomputed from the current
table contents. -/
theorem C7_stats_formula (db : List Channel) (hne : nonNullCounts db ≠ []) :
    statsEndpoint db =
      ⟨db.length, (nonNullCounts db).sum,
        round1 (((nonNullCounts db).sum : ℚ)
          / ((nonNullCounts db).length : ℚ))⟩ := by
  unfold statsEndpoint sqlSUM sqlAVG
  rw [if_neg hne, if_neg hne]
  rfl

/-- C7 witness: counts 4 and 5 give sum 9 and average 4.5. -/
theorem C7_stats_formula_witness :
    nonNullCounts statsDb ≠ [] ∧ statsEndpoint statsDb = ⟨2, 9, (9 : ℚ) / 2⟩ := by
  have h1 : nonNullCounts statsDb = [4, 5] := by decide
  refine ⟨by decide, ?_⟩
  rw [C7_stats_formula statsDb (by decide), h1]
  simp only [StatsResponse.mk.injEq]
  refine ⟨by decide, by decide, ?_⟩
  have h45 : ((([4, 5] : List ℤ).sum : ℚ) / (([4, 5] : List ℤ).length : ℚ))
      * 10 = (45 : ℚ) := by
    norm_num
  unfold round1
  rw [h45, round_ofNat]
  norm_num

/-- C8: on any failing sitemap fetch (network error, bad HTTP status, or
malformed XML) the extraction yields the empty sequence without raising,
and the indexing run completes as a success with zero indexed, skipped and
errored channels and an unchanged database. -/
theorem C8_fetch_failure_empty_run (o : FetchOutcome)
    (scrape : String → Option Metadata) (mx : Option Nat) (s : DBState)
    (hfail : o.isFailure = true) :
    fetch_sitemap o = none ∧ extract_channels_from_sitemap o = [] ∧
      runIndexer scrape o mx s = .ok (initState s) := by
  have hnone : fetch_sitemap o = none := by
    cases o with
    | success entries => simp [FetchOutcome.isFailure] at hfail
    | networkError m => rfl
    | httpError st => rfl
    | malformedXml m => rfl
  have hextract : extract_channels_from_sitemap o = [] := by
    unfold extract_channels_from_sitemap
    rw [hnone]
  refine ⟨hnone, hextract, ?_⟩
  unfold runIndexer index_channels
  rw [hextract, limitChannels_nil]
  rfl

/-- C8 witness: a network timeout. -/
theorem C8_fetch_failure_empty_run_witness :
    fetch_sitemap (.networkError "timeout") = none ∧
      extract_channels_from_sitemap (.networkError "timeout") = [] ∧
      runIndexer wScrape (.networkError "timeout") none dbEmpty
        = .ok (initState dbEmpty) :=
  C8_fetch_failure_empty_run (.networkError "timeout") wScrape none dbEmpty
    rfl

/-- C9 counterexample: two distinct channels that share the display name
Foo both survive `SELECT DISTINCT` (it deduplicates the whole selected
triple, not the display value), so two suggestions carry the same text. -/
theorem C9_counterexample :
    ((autocompleteEndpoint acDb "Fo" 10).map fun s => s.text) = ["Foo", "Foo"]
      ∧ ¬ ((autocompleteEndpoint acDb "Fo" 10).map fun s => s.text).Nodup :=
  ⟨by decide, by decide⟩

/-- C9 (amended): for queries of stripped length at least two, the
suggestions are the selected (name, handle, video_count) rows, which are
deduplicated as whole triples — no selected triple repeats, though two
suggestions may still show the same text when distinct channels share a
name. -/
theorem C9_distinct_rows (db : List Channel) (q : String) (lim : Nat)
    (hlen : 2 ≤ (pyStrip q).length) :
    (autocompleteRows db (pyStrip q) lim).Nodup ∧
      autocompleteEndpoint db q lim
        = (autocompleteRows db (pyStrip q) lim).map mkSuggestion := by
  constructor
  · unfold autocompleteRows orderLimitBy sortByVc
    apply List.Nodup.sublist (List.take_sublist _ _)
    exact (List.perm_insertionSort _ _).symm.nodup (List.nodup_dedup _)
  · unfold autocompleteEndpoint
    have hne : ¬ (pyStrip q = "" ∨ (pyStrip q).length < 2) := by
      rintro (h | h)
      · rw [h] at hlen
        exact absurd hlen (by decide)
      · omega
    rw [if_neg hne]

/-- C9 witness for the amended statement. -/
theorem C9_distinct_rows_witness :
    (autocompleteRows acDb (pyStrip "Fo") 10).Nodup ∧
      autocompleteEndpoint acDb "Fo" 10
        = (autocompleteRows acDb (pyStrip "Fo") 10).map mkSuggestion :=
  C9_distinct_rows acDb "Fo" 10 (by decide)

/-- C10: when no stored channel has a non-null video count (in particular
on an empty table) stats still succeeds, coalescing the NULL sum and NULL
average to total_videos = 0 and avg_videos_per_channel = 0. -/
theorem C10_stats_all_null (db : List Channel)
    (hall : ∀ c ∈ db, c.video_count = none) :
    statsEndpoint db = ⟨db.length, 0, 0⟩ := by
  have hnil : nonNullCounts db = [] := by
    unfold nonNullCounts
    exact List.filterMap_eq_nil_iff.mpr hall
  unfold statsEndpoint sqlSUM sqlAVG
  rw [hnil, if_pos rfl, if_pos rfl]
  show (⟨db.length, (none : Option Int).getD 0,
    round1 ((none : Option ℚ).getD 0)⟩ : StatsResponse) = ⟨db.length, 0, 0⟩
  norm_num [round1]

/-- C10 witness: a single row with NULL video_count. -/
theorem C10_stats_all_null_witness :
    statsEndpoint statsDbNull = ⟨1, 0, 0⟩ :=
  C10_stats_all_null statsDbNull (by decide)
